import Mathlib

/-!
Shallow embedding of `src/server.js` of RuleKeeper-Status: the uptime/downtime
accounting engine of a status-monitoring server.

Modelling conventions:
* Wall-clock instants are integers counting milliseconds since the Unix epoch
  (a JavaScript `Date` wraps exactly such a number; `toISOString`/`new Date(iso)`
  round-trip it unchanged at millisecond precision, so persistence of timestamps
  is modelled as the identity on `Option Int`).
* JavaScript numeric fields that hold integers are modelled as `Int`.
  `Math.floor(a / b)` and `getMinutes`-style field reads need floor-division
  semantics; every divisor in the source is a positive constant (1000, 60000,
  …), and for positive divisors the Euclidean `/` and `%` of Lean on `Int` agree
  with floor division and the always-nonnegative remainder, so they are used
  throughout.
* Nullable variables (`let x = null`) are `Option _`.
* Each separate read of the real-time clock (`Date.now()` / `new Date()`)
  in the source becomes an explicit parameter of the embedded function, so
  theorems quantify over all possible timings.
* The module-level mutable variables of `server.js` are gathered in the
  structure `ServerState`; every function of the source that mutates them is
  embedded as a state-passing function `ServerState → ... → ServerState`.
-/

/-- The module-level mutable state of `server.js` (lines 14-29):
tracking variables, the uptime ledger, and the accounting anchor
`lastUpdatedAt`. -/
structure ServerState where
  isOnline : Option Bool
  lastOnlineTime : Option Int
  downStartTime : Option Int
  lastCheck : Option Int
  lastHttpStatus : Option (Int ⊕ String)
  uptimeSeconds : Int
  downtimeSeconds : Int
  lastStateChange : Option Int
  lastStatus : Option Bool
  lastUpdatedAt : Int
deriving DecidableEq, Repr

/-- Initial values of the module-level variables at process start
(`server.js` lines 15-29): all tracking fields null, counters zero and
`lastUpdatedAt = Date.now()`, the startup instant `t0`. -/
def initialState (t0 : Int) : ServerState :=
  { isOnline := none
    lastOnlineTime := none
    downStartTime := none
    lastCheck := none
    lastHttpStatus := none
    uptimeSeconds := 0
    downtimeSeconds := 0
    lastStateChange := none
    lastStatus := none
    lastUpdatedAt := t0 }

/-- `roundUpToNext5Minutes` (`server.js` lines 51-60): read the minute
field, add `extra = 5 - minutes % 5` (or 5 on an exact multiple) minutes,
then zero the seconds and milliseconds.  `t` is the date in milliseconds;
`setMinutes(minutes + extra)` adds `extra * 60000` ms, and zeroing seconds
and milliseconds truncates to the containing minute. -/
def roundUpToNext5Minutes (t : Int) : Int :=
  let minutes := t / 60000 % 60
  let remainder := minutes % 5
  let extra := if remainder = 0 then 5 else 5 - remainder
  (t + extra * 60000) / 60000 * 60000

/-- `roundUpToNext30Seconds` (`server.js` lines 37-48): below second 30 of
the current minute, jump to second 30 of it; otherwise to the start of the
next minute. -/
def roundUpToNext30Seconds (t : Int) : Int :=
  let seconds := t / 1000 % 60
  if seconds < 30 then t / 60000 * 60000 + 30000
  else (t / 60000 + 1) * 60000

/-- `updateUptimeTracker` (`server.js` lines 130-158), the settlement
operation, with the single `Date.now()` read passed in as `now`:
if `lastStatus` is null, reset the anchor and return; if less than a
second elapsed, reset the anchor and return; otherwise credit
`Math.floor(deltaMs / 1000)` whole seconds to the counter selected by
`lastStatus` and advance the anchor by exactly that many seconds. -/
def updateUptimeTracker (s : ServerState) (now : Int) : ServerState :=
  match s.lastStatus with
  | none => { s with lastUpdatedAt := now }
  | some status =>
    let deltaMs := now - s.lastUpdatedAt
    if deltaMs < 1000 then
      { s with lastUpdatedAt := now }
    else
      let deltaSec := deltaMs / 1000
      let s :=
        if status then { s with uptimeSeconds := s.uptimeSeconds + deltaSec }
        else { s with downtimeSeconds := s.downtimeSeconds + deltaSec }
      { s with lastUpdatedAt := s.lastUpdatedAt + deltaSec * 1000 }

/-- Outcome of the `fetch` call in `checkStatus` (`server.js` lines 167-183):
either an HTTP response with its status code, or a thrown network error
carrying `err.name` when that is present and non-empty. -/
inductive FetchOutcome where
  | response (status : Int)
  | networkError (errName : Option String)
deriving DecidableEq, Repr

/-- Classification of a fetch outcome (`server.js` lines 171-182): `res.ok`
(status 200-299) is online, any other response is offline with the status
code retained, and a thrown error is offline with the error name (or the
fallback string) retained. -/
def classifyFetch : FetchOutcome → Bool × (Int ⊕ String)
  | .response status =>
    (decide (200 ≤ status ∧ status < 300), Sum.inl status)
  | .networkError errName =>
    (false,
      Sum.inr (match errName with
        | some n => if n = "" then "network_error" else n
        | none => "network_error"))

/-- `checkStatus` (`server.js` lines 161-209) with the probe outcome and the
four separate clock reads as parameters: settle elapsed time at `tSettle`,
classify the outcome, record the flip bookkeeping at `tFlip` only when the
new status differs (`!==`) from `lastStatus`, then unconditionally update
`isOnline`, `lastStatus`, `lastCheck := tCheck` and reset the anchor to
`tAnchor`. -/
def checkStatus (s : ServerState) (r : FetchOutcome)
    (tSettle tFlip tCheck tAnchor : Int) : ServerState :=
  let s := updateUptimeTracker s tSettle
  let newStatus := (classifyFetch r).fst
  let s := { s with lastHttpStatus := some (classifyFetch r).snd }
  let s :=
    if some newStatus ≠ s.lastStatus then
      if newStatus then
        { s with lastStateChange := some tFlip, lastOnlineTime := some tFlip,
                 downStartTime := none }
      else
        { s with lastStateChange := some tFlip, downStartTime := some tFlip }
    else s
  { s with isOnline := some newStatus, lastStatus := some newStatus,
           lastCheck := some tCheck, lastUpdatedAt := tAnchor }

/-- The inputs of one probe: the fetch outcome and the four clock reads of
`checkStatus`. -/
structure ProbeInput where
  result : FetchOutcome
  tSettle : Int
  tFlip : Int
  tCheck : Int
  tAnchor : Int
deriving DecidableEq, Repr

/-- One probe as a step on the server state. -/
def probeStep (s : ServerState) (p : ProbeInput) : ServerState :=
  checkStatus s p.result p.tSettle p.tFlip p.tCheck p.tAnchor

/-- The parsed content of `uptime.json` as `loadUptimeFromDisk` reads it:
numeric fields that may be missing (coerced to 0 by `Number(x) || 0`),
nullable ISO timestamps (as epoch milliseconds), and a `lastStatus` that is
kept only when it is a boolean. -/
structure DiskData where
  uptimeSeconds : Option Int
  downtimeSeconds : Option Int
  lastStateChange : Option Int
  lastStatus : Option Bool
  lastOnlineTime : Option Int
deriving DecidableEq, Repr

/-- `TEN_YEARS_SEC` (`server.js` line 81). -/
def TEN_YEARS_SEC : Int := 10 * 365 * 24 * 3600

/-- `loadUptimeFromDisk` (`server.js` lines 63-108) with the read result as
a parameter: `none` models a missing file or invalid JSON (the catch branch,
which resets the counters, `lastStateChange` and `lastStatus` but not
`lastOnlineTime`); `some data` models a successful parse, followed by the
`lastOnlineTime` backfill and the unit-sanity correction of each counter.
`now` is the `nowMs()` read that refreshes the anchor. -/
def loadUptimeFromDisk (s : ServerState) (input : Option DiskData)
    (now : Int) : ServerState :=
  match input with
  | some data =>
    let uptimeSeconds := data.uptimeSeconds.getD 0
    let downtimeSeconds := data.downtimeSeconds.getD 0
    let lastStateChange := data.lastStateChange
    let lastStatus := data.lastStatus
    let lastOnlineTime := data.lastOnlineTime
    let lastOnlineTime :=
      if lastStatus = some true ∧ downtimeSeconds > 0 ∧
          lastOnlineTime = none ∧ lastStateChange ≠ none then
        lastStateChange
      else lastOnlineTime
    let uptimeSeconds :=
      if uptimeSeconds > TEN_YEARS_SEC * 1000 then uptimeSeconds / 1000
      else uptimeSeconds
    let downtimeSeconds :=
      if downtimeSeconds > TEN_YEARS_SEC * 1000 then downtimeSeconds / 1000
      else downtimeSeconds
    { s with uptimeSeconds := uptimeSeconds, downtimeSeconds := downtimeSeconds,
             lastStateChange := lastStateChange, lastStatus := lastStatus,
             lastOnlineTime := lastOnlineTime, lastUpdatedAt := now }
  | none =>
    { s with uptimeSeconds := 0, downtimeSeconds := 0,
             lastStateChange := none, lastStatus := none, lastUpdatedAt := now }

/-- `saveUptimeToDisk` (`server.js` lines 110-125): the serialized ledger,
fields written verbatim (timestamps as ISO strings or null, modelled by the
identity on `Option Int`). -/
def saveUptimeToDisk (s : ServerState) : DiskData :=
  { uptimeSeconds := some s.uptimeSeconds
    downtimeSeconds := some s.downtimeSeconds
    lastStateChange := s.lastStateChange
    lastStatus := s.lastStatus
    lastOnlineTime := s.lastOnlineTime }

/-- The raw uptime percentage of the `/uptime` handler (`server.js` lines
252-253): `total > 0 ? (uptimeSeconds / total) * 100 : 100`, computed with
JavaScript real (here: rational) division. -/
def uptimePct (up down : Int) : ℚ :=
  if up + down > 0 then ((up : ℚ) / ((up : ℚ) + (down : ℚ))) * 100 else 100

/-- The JSON body produced by the `/status` handler (`server.js` lines
237-245). -/
structure StatusResponse where
  isOnline : Option Bool
  lastOnlineTime : Option Int
  downStartTime : Option Int
  nextCheck : Int
  lastCheck : Option Int
  now : Int
  lastHttpStatus : Option (Int ⊕ String)
deriving DecidableEq, Repr

/-- The `/status` handler (`server.js` lines 235-246) with the clock read
passed as `now`: it computes its JSON body from the current state and leaves
the state untouched (it calls no mutating helper). -/
def statusEndpoint (s : ServerState) (now : Int) : StatusResponse × ServerState :=
  ({ isOnline := s.isOnline
     lastOnlineTime := s.lastOnlineTime
     downStartTime := s.downStartTime
     nextCheck := roundUpToNext5Minutes (s.lastCheck.getD now)
     lastCheck := s.lastCheck
     now := now
     lastHttpStatus := s.lastHttpStatus }, s)

/-- The JSON body produced by the `/uptime` handler (`server.js` lines
257-265); the percentage is kept as the raw rational `rawPct` of line 253
(the handler renders it at 2 and 6 decimals). -/
structure UptimeResponse where
  uptimeSeconds : Int
  downtimeSeconds : Int
  rawPct : ℚ
  nextRefresh : Int
  lastStateChange : Option Int
  lastState : String
deriving DecidableEq, Repr

/-- The `/uptime` handler (`server.js` lines 248-266) with the clock read
passed as `now`: it first settles elapsed time via `updateUptimeTracker`,
then computes its JSON body from the settled state. -/
def uptimeEndpoint (s : ServerState) (now : Int) : UptimeResponse × ServerState :=
  let s := updateUptimeTracker s now
  ({ uptimeSeconds := s.uptimeSeconds
     downtimeSeconds := s.downtimeSeconds
     rawPct := uptimePct s.uptimeSeconds s.downtimeSeconds
     nextRefresh := roundUpToNext30Seconds now
     lastStateChange := s.lastStateChange
     lastState :=
       match s.lastStatus with
       | some true => "ONLINE"
       | some false => "OFFLINE"
       | none => "UNKNOWN" }, s)

/-- States reachable from the startup state by any sequence of
`loadUptimeFromDisk` and `checkStatus` operations, each with arbitrary
inputs and clock reads. -/
inductive Reachable : ServerState → Prop where
  | init (t0 : Int) : Reachable (initialState t0)
  | load {s : ServerState} (input : Option DiskData) (now : Int) :
      Reachable s → Reachable (loadUptimeFromDisk s input now)
  | probe {s : ServerState} (p : ProbeInput) :
      Reachable s → Reachable (probeStep s p)

/-- States reachable from the startup state by probe operations alone
(fresh start, no `uptime.json` load). -/
inductive ProbeReachable : ServerState → Prop where
  | init (t0 : Int) : ProbeReachable (initialState t0)
  | probe {s : ServerState} (p : ProbeInput) :
      ProbeReachable s → ProbeReachable (probeStep s p)

/-- An instant is a 5-minute boundary (minute of the hour a multiple of 5,
seconds and milliseconds zero) exactly when it is a multiple of 300000 ms:
hours start at multiples of 3600000 = 12 * 300000 ms. -/
def isFiveMinuteBoundary (m : Int) : Prop := m % 300000 = 0

instance (m : Int) : Decidable (isFiveMinuteBoundary m) :=
  inferInstanceAs (Decidable (m % 300000 = 0))

/-- `roundUpToNext5Minutes` in closed form: the next multiple of 5 minutes
strictly after `t`. -/
lemma roundUpToNext5Minutes_eq (t : Int) :
    roundUpToNext5Minutes t = (t / 300000 + 1) * 300000 := by
  simp only [roundUpToNext5Minutes]
  split
  · omega
  · omega

/-- Settlement touches only the two counters and the anchor. -/
lemma updateUptimeTracker_frame (s : ServerState) (now : Int) :
    (updateUptimeTracker s now).lastStatus = s.lastStatus
    ∧ (updateUptimeTracker s now).lastStateChange = s.lastStateChange
    ∧ (updateUptimeTracker s now).lastOnlineTime = s.lastOnlineTime
    ∧ (updateUptimeTracker s now).downStartTime = s.downStartTime
    ∧ (updateUptimeTracker s now).isOnline = s.isOnline := by
  unfold updateUptimeTracker
  cases h : s.lastStatus with
  | none => simp
  | some b => cases b <;> dsimp only <;> split <;> simp

/-- After a probe, `lastStatus` is the classification of the probe result. -/
lemma probeStep_lastStatus (s : ServerState) (p : ProbeInput) :
    (probeStep s p).lastStatus = some (classifyFetch p.result).fst := rfl

/-- After a probe, `isOnline` is the classification of the probe result. -/
lemma probeStep_isOnline (s : ServerState) (p : ProbeInput) :
    (probeStep s p).isOnline = some (classifyFetch p.result).fst := rfl

/-- A probe whose classification equals the preceding `lastStatus` leaves
the transition bookkeeping untouched. -/
lemma probeStep_noFlip {s : ServerState} {p : ProbeInput}
    (h : some (classifyFetch p.result).fst = s.lastStatus) :
    (probeStep s p).lastStateChange = s.lastStateChange
    ∧ (probeStep s p).lastOnlineTime = s.lastOnlineTime
    ∧ (probeStep s p).downStartTime = s.downStartTime := by
  unfold probeStep checkStatus
  have hf := updateUptimeTracker_frame s p.tSettle
  dsimp only
  rw [if_neg (by simp [hf.1, h])]
  exact ⟨hf.2.1, hf.2.2.1, hf.2.2.2.1⟩

/-- A probe whose classification differs from the preceding `lastStatus`
records the flip at `tFlip`. -/
lemma probeStep_flip {s : ServerState} {p : ProbeInput}
    (h : some (classifyFetch p.result).fst ≠ s.lastStatus) :
    (probeStep s p).lastStateChange = some p.tFlip
    ∧ ((classifyFetch p.result).fst = true →
        (probeStep s p).lastOnlineTime = some p.tFlip
        ∧ (probeStep s p).downStartTime = none)
    ∧ ((classifyFetch p.result).fst = false →
        (probeStep s p).downStartTime = some p.tFlip) := by
  unfold probeStep checkStatus
  have hf := updateUptimeTracker_frame s p.tSettle
  dsimp only
  rw [if_pos (by simp [hf.1, h])]
  cases hc : (classifyFetch p.result).fst <;> simp [hc]

/-- A run of probes that all classify to the current `lastStatus` never
moves `lastStateChange`. -/
lemma probeList_same {b : Bool} : ∀ (ps : List ProbeInput) (s : ServerState),
    s.lastStatus = some b → (∀ q ∈ ps, (classifyFetch q.result).fst = b) →
    (ps.foldl probeStep s).lastStateChange = s.lastStateChange := by
  intro ps
  induction ps with
  | nil => intro s _ _; rfl
  | cons q qs ih =>
    intro s hs hall
    have hq : (classifyFetch q.result).fst = b := hall q (by simp)
    have hnf := probeStep_noFlip (s := s) (p := q) (by rw [hq, hs])
    have hls : (probeStep s q).lastStatus = some b := by
      rw [probeStep_lastStatus, hq]
    simp only [List.foldl_cons]
    rw [ih (probeStep s q) hls (fun r hr => hall r (by simp [hr])), hnf.1]

/-- Invariant of fresh-start probe-only executions: `downStartTime` is set
exactly when `lastStatus` is Offline, and `isOnline` mirrors `lastStatus`
(both absent before the first probe). -/
lemma probeReachable_inv (s : ServerState) (h : ProbeReachable s) :
    (s.downStartTime ≠ none ↔ s.lastStatus = some false)
    ∧ (s.isOnline = s.lastStatus ∨ (s.isOnline = none ∧ s.lastStatus = none)) := by
  induction h with
  | init t0 => simp [initialState]
  | @probe s' p _ ih =>
    refine ⟨?_, Or.inl (by rw [probeStep_isOnline, probeStep_lastStatus])⟩
    rw [probeStep_lastStatus]
    by_cases hc : some (classifyFetch p.result).fst = s'.lastStatus
    · have hnf := probeStep_noFlip hc
      rw [hnf.2.2, hc]
      exact ih.1
    · have hfl := probeStep_flip hc
      cases hcf : (classifyFetch p.result).fst with
      | false => simp [hfl.2.2 hcf, hcf]
      | true => simp [(hfl.2.1 hcf).2, hcf]

/-- C1 counterexample: with `lastStatus` known (`some true`) and an elapsed
time of 500 ms < 1000 ms, the settlement call does NOT leave the anchor
unchanged — `server.js` line 143 resets `lastUpdatedAt = now` on the
sub-second path, discarding the remainder, contrary to the claim. -/
theorem c1_subsecond_anchor_counterexample :
    ({ initialState 0 with lastStatus := some true } : ServerState).lastStatus ≠ none
    ∧ (0 : Int) ≤ 500 - ({ initialState 0 with lastStatus := some true } : ServerState).lastUpdatedAt
    ∧ (500 : Int) - ({ initialState 0 with lastStatus := some true } : ServerState).lastUpdatedAt < 1000
    ∧ (updateUptimeTracker { initialState 0 with lastStatus := some true } 500).lastUpdatedAt
        ≠ ({ initialState 0 with lastStatus := some true } : ServerState).lastUpdatedAt := by
  decide

/-- C1 (amended): on a settlement call with `lastStatus` known and a
non-negative elapsed time, `uptimeSeconds + downtimeSeconds` grows by exactly
`floor(deltaMs / 1000)`; but when `deltaMs < 1000` the anchor `lastUpdatedAt`
is reset to `now` (not left unchanged), so the sub-second remainder is
discarded rather than carried forward, and the counters are untouched on
that path. -/
theorem c1_settlement_exact_sum (s : ServerState) (now : Int)
    (hknown : s.lastStatus ≠ none) (hge : 0 ≤ now - s.lastUpdatedAt) :
    (updateUptimeTracker s now).uptimeSeconds + (updateUptimeTracker s now).downtimeSeconds
      = s.uptimeSeconds + s.downtimeSeconds + (now - s.lastUpdatedAt) / 1000
    ∧ (now - s.lastUpdatedAt < 1000 →
        (updateUptimeTracker s now).lastUpdatedAt = now
        ∧ (updateUptimeTracker s now).uptimeSeconds = s.uptimeSeconds
        ∧ (updateUptimeTracker s now).downtimeSeconds = s.downtimeSeconds) := by
  obtain ⟨b, hb⟩ : ∃ b, s.lastStatus = some b := by
    cases h : s.lastStatus with
    | none => exact absurd h hknown
    | some b => exact ⟨b, rfl⟩
  unfold updateUptimeTracker
  rw [hb]
  cases b <;> dsimp only <;> split <;> simp <;> omega

/-- C1 witness: the amended settlement theorem applied at a concrete state
(`lastStatus = some true`, anchor 0) and `now = 500`. -/
theorem c1_settlement_exact_sum_witness :
    (updateUptimeTracker { initialState 0 with lastStatus := some true } 500).uptimeSeconds
        + (updateUptimeTracker { initialState 0 with lastStatus := some true } 500).downtimeSeconds
      = 0 + 0 + (500 : Int) / 1000
    ∧ (updateUptimeTracker { initialState 0 with lastStatus := some true } 500).lastUpdatedAt
        = 500 := by
  have h := c1_settlement_exact_sum { initialState 0 with lastStatus := some true } 500
    (by decide) (by decide)
  exact ⟨h.1, (h.2 (by decide)).1⟩

/-- C2: on a settlement call with `lastStatus = some b` and at least one
second elapsed, exactly the counter selected by `b` grows, by
`deltaSec = floor(deltaMs / 1000) ≥ 1` whole seconds, the other counter is
untouched, and the anchor advances by exactly `deltaSec * 1000` — not to
`now` — keeping the fractional remainder. -/
theorem c2_whole_second_settlement (s : ServerState) (b : Bool) (now : Int)
    (hst : s.lastStatus = some b) (hge : 1000 ≤ now - s.lastUpdatedAt) :
    ((updateUptimeTracker s now).uptimeSeconds
        = s.uptimeSeconds + (if b then (now - s.lastUpdatedAt) / 1000 else 0))
    ∧ ((updateUptimeTracker s now).downtimeSeconds
        = s.downtimeSeconds + (if b then 0 else (now - s.lastUpdatedAt) / 1000))
    ∧ (updateUptimeTracker s now).lastUpdatedAt
        = s.lastUpdatedAt + (now - s.lastUpdatedAt) / 1000 * 1000
    ∧ 1 ≤ (now - s.lastUpdatedAt) / 1000 := by
  unfold updateUptimeTracker
  rw [hst]
  cases b <;> dsimp only <;> split <;> simp <;> omega

/-- C2 witness: the settlement theorem applied at a concrete Online state
with anchor 0 and `now = 2500`: 2 whole seconds are credited to uptime and
the anchor advances to 2000, retaining the 500 ms remainder. -/
theorem c2_whole_second_settlement_witness :
    (updateUptimeTracker { initialState 0 with lastStatus := some true } 2500).uptimeSeconds
      = 0 + (if true then (2500 : Int) / 1000 else 0)
    ∧ (updateUptimeTracker { initialState 0 with lastStatus := some true } 2500).lastUpdatedAt
      = 0 + (2500 : Int) / 1000 * 1000 := by
  have h := c2_whole_second_settlement { initialState 0 with lastStatus := some true } true 2500
    (by decide) (by decide)
  exact ⟨h.1, h.2.2.1⟩

/-- C9: `uptimeSeconds + downtimeSeconds` never decreases across a
settlement call, whatever `now` is; in particular when the wall clock has
moved backwards (`now < lastUpdatedAt`) neither counter changes. -/
theorem c9_counter_sum_monotone (s : ServerState) (now : Int) :
    s.uptimeSeconds + s.downtimeSeconds
      ≤ (updateUptimeTracker s now).uptimeSeconds + (updateUptimeTracker s now).downtimeSeconds
    ∧ (now < s.lastUpdatedAt →
        (updateUptimeTracker s now).uptimeSeconds = s.uptimeSeconds
        ∧ (updateUptimeTracker s now).downtimeSeconds = s.downtimeSeconds) := by
  unfold updateUptimeTracker
  cases h : s.lastStatus with
  | none => simp
  | some b => cases b <;> dsimp only <;> split <;> simp <;> omega

/-- C9 witness: monotonicity applied at a concrete Offline state with the
clock moved backwards (`now = 3` before the anchor 5): counters unchanged. -/
theorem c9_counter_sum_monotone_witness :
    (0 : Int) + 0
      ≤ (updateUptimeTracker { initialState 5 with lastStatus := some false } 3).uptimeSeconds
        + (updateUptimeTracker { initialState 5 with lastStatus := some false } 3).downtimeSeconds
    ∧ (updateUptimeTracker { initialState 5 with lastStatus := some false } 3).uptimeSeconds = 0
    ∧ (updateUptimeTracker { initialState 5 with lastStatus := some false } 3).downtimeSeconds = 0 := by
  have h := c9_counter_sum_monotone { initialState 5 with lastStatus := some false } 3
  exact ⟨h.1, h.2 (by decide)⟩

/-- C5: `roundUpToNext5Minutes t` is the least 5-minute boundary (multiple
of 300000 ms: minute a multiple of 5, seconds and milliseconds zero)
strictly after `t`; in particular 10:03:15 ↦ 10:05:00, 10:07:31 ↦ 10:10:00
and the exact boundary 10:05:00 ↦ 10:10:00 (times of 1970-01-01, in ms). -/
theorem c5_next_five_minute_boundary (t : Int) :
    isFiveMinuteBoundary (roundUpToNext5Minutes t)
    ∧ t < roundUpToNext5Minutes t
    ∧ (∀ m : Int, isFiveMinuteBoundary m → t < m → roundUpToNext5Minutes t ≤ m)
    ∧ roundUpToNext5Minutes 36195000 = 36300000
    ∧ roundUpToNext5Minutes 36451000 = 36600000
    ∧ roundUpToNext5Minutes 36300000 = 36600000 := by
  unfold isFiveMinuteBoundary
  rw [roundUpToNext5Minutes_eq]
  refine ⟨by omega, by omega, ?_, by decide, by decide, by decide⟩
  intro m hm ht
  omega

/-- C5 witness: the boundary theorem applied at `t` = 10:03:15, with the
minimality hypothesis discharged at the concrete boundary 10:05:00. -/
theorem c5_next_five_minute_boundary_witness :
    isFiveMinuteBoundary (roundUpToNext5Minutes 36195000)
    ∧ (36195000 : Int) < roundUpToNext5Minutes 36195000
    ∧ roundUpToNext5Minutes 36195000 ≤ 36300000 := by
  have h := c5_next_five_minute_boundary 36195000
  exact ⟨h.1, h.2.1, h.2.2.1 36300000 (by decide) (by decide)⟩

/-- C3: a probe records the classification into `lastStatus`,
`lastStateChange` is left unchanged exactly when the classification equals
the immediately preceding `lastStatus` and is set to the flip instant when
it differs, and any run of further probes with the same classification
(probes 2..N of a constant-classification sequence) leaves `lastStateChange`
unchanged. -/
theorem c3_state_change_iff_flip (s : ServerState) (p : ProbeInput) :
    (probeStep s p).lastStatus = some (classifyFetch p.result).fst
    ∧ (some (classifyFetch p.result).fst = s.lastStatus →
        (probeStep s p).lastStateChange = s.lastStateChange)
    ∧ (some (classifyFetch p.result).fst ≠ s.lastStatus →
        (probeStep s p).lastStateChange = some p.tFlip)
    ∧ (∀ ps : List ProbeInput,
        (∀ q ∈ ps, (classifyFetch q.result).fst = (classifyFetch p.result).fst) →
        (ps.foldl probeStep (probeStep s p)).lastStateChange
          = (probeStep s p).lastStateChange) :=
  ⟨probeStep_lastStatus s p,
   fun h => (probeStep_noFlip h).1,
   fun h => (probeStep_flip h).1,
   fun ps hall => probeList_same ps (probeStep s p) (probeStep_lastStatus s p) hall⟩

/-- C3 witness: from the fresh state, a probe classifying Online (HTTP 200)
flips (`null !== true`) and stamps `lastStateChange`; one further probe with
the same classification leaves it unchanged. -/
theorem c3_state_change_iff_flip_witness :
    (probeStep (initialState 0) ⟨.response 200, 1, 2, 3, 4⟩).lastStateChange = some 2
    ∧ ([⟨.response 204, 5, 6, 7, 8⟩].foldl probeStep
          (probeStep (initialState 0) ⟨.response 200, 1, 2, 3, 4⟩)).lastStateChange
        = (probeStep (initialState 0) ⟨.response 200, 1, 2, 3, 4⟩).lastStateChange := by
  have h := c3_state_change_iff_flip (initialState 0) ⟨.response 200, 1, 2, 3, 4⟩
  exact ⟨h.2.2.1 (by decide), h.2.2.2 [⟨.response 204, 5, 6, 7, 8⟩] (by decide)⟩

/-- C4 counterexample: load a persisted ledger whose `lastStatus` is Offline
(`false`), then probe and classify Offline. The classification equals the
loaded `lastStatus`, so no flip is recorded: the reached state is Offline
(`isOnline = some false`) yet `downStartTime` is still null — the claimed
iff invariant fails on load-and-probe sequences. -/
theorem c4_down_since_counterexample :
    Reachable (probeStep
      (loadUptimeFromDisk (initialState 0)
        (some ⟨some 0, some 0, some 500, some false, none⟩) 1000)
      ⟨.networkError none, 1100, 1100, 1100, 1100⟩)
    ∧ (probeStep
        (loadUptimeFromDisk (initialState 0)
          (some ⟨some 0, some 0, some 500, some false, none⟩) 1000)
        ⟨.networkError none, 1100, 1100, 1100, 1100⟩).isOnline = some false
    ∧ (probeStep
        (loadUptimeFromDisk (initialState 0)
          (some ⟨some 0, some 0, some 500, some false, none⟩) 1000)
        ⟨.networkError none, 1100, 1100, 1100, 1100⟩).downStartTime = none :=
  ⟨Reachable.probe _ (Reachable.load _ _ (Reachable.init 0)), by decide, by decide⟩

/-- C4 (amended): in every state reachable from a fresh start by probe
operations alone — without loading a persisted ledger — `downStartTime` is
non-null iff the current status `isOnline` is Offline; loading an Offline
ledger and probing breaks the invariant (see the counterexample). -/
theorem c4_down_since_iff_offline (s : ServerState) (h : ProbeReachable s) :
    s.downStartTime ≠ none ↔ s.isOnline = some false := by
  obtain ⟨h1, h2⟩ := probeReachable_inv s h
  rcases h2 with h2 | ⟨h2a, h2b⟩
  · rw [h2]; exact h1
  · rw [h1, h2a, h2b]

/-- C4 witness: the amended invariant applied to the concrete fresh-start
state after one probe classifying Offline: `downStartTime` is set. -/
theorem c4_down_since_iff_offline_witness :
    (probeStep (initialState 0) ⟨.networkError none, 1, 2, 3, 4⟩).downStartTime ≠ none :=
  (c4_down_since_iff_offline _
    (ProbeReachable.probe _ (ProbeReachable.init 0))).mpr (by decide)

/-- C10: loading a persisted ledger with boolean `lastStatus = b` and then
probing with a result classified as the same `b` is a no-flip probe: it
leaves `lastStateChange` and `lastOnlineTime` exactly as the load produced
them — the persisted `lastStatus` carries flip detection across restarts. -/
theorem c10_restart_no_spurious_flip (s : ServerState) (data : DiskData)
    (t : Int) (b : Bool) (p : ProbeInput)
    (hst : data.lastStatus = some b) (hc : (classifyFetch p.result).fst = b) :
    (probeStep (loadUptimeFromDisk s (some data) t) p).lastStateChange
      = (loadUptimeFromDisk s (some data) t).lastStateChange
    ∧ (probeStep (loadUptimeFromDisk s (some data) t) p).lastOnlineTime
      = (loadUptimeFromDisk s (some data) t).lastOnlineTime := by
  have hls : (loadUptimeFromDisk s (some data) t).lastStatus = some b := by
    simp [loadUptimeFromDisk, hst]
  have h := probeStep_noFlip (s := loadUptimeFromDisk s (some data) t) (p := p)
    (by rw [hc, hls])
  exact ⟨h.1, h.2.1⟩

/-- C10 witness: a ledger with `lastStatus = true` is loaded and the first
probe also classifies Online (HTTP 200): `lastStateChange` and
`lastOnlineTime` keep their loaded values. -/
theorem c10_restart_no_spurious_flip_witness :
    (probeStep (loadUptimeFromDisk (initialState 0)
        (some ⟨some 7, some 3, some 500, some true, some 600⟩) 1000)
      ⟨.response 200, 1100, 1100, 1100, 1100⟩).lastStateChange
      = (loadUptimeFromDisk (initialState 0)
          (some ⟨some 7, some 3, some 500, some true, some 600⟩) 1000).lastStateChange
    ∧ (probeStep (loadUptimeFromDisk (initialState 0)
        (some ⟨some 7, some 3, some 500, some true, some 600⟩) 1000)
      ⟨.response 200, 1100, 1100, 1100, 1100⟩).lastOnlineTime
      = (loadUptimeFromDisk (initialState 0)
          (some ⟨some 7, some 3, some 500, some true, some 600⟩) 1000).lastOnlineTime :=
  c10_restart_no_spurious_flip (initialState 0)
    ⟨some 7, some 3, some 500, some true, some 600⟩ 1000 true
    ⟨.response 200, 1100, 1100, 1100, 1100⟩ (by decide) (by decide)

/-- A ledger state whose round-trip triggers the `lastOnlineTime` backfill
of `loadUptimeFromDisk`: last status Online, positive downtime,
`lastStateChange` set and `lastOnlineTime` null. -/
def backfillLedger : ServerState :=
  { initialState 0 with
    downtimeSeconds := 5
    lastStatus := some true
    lastStateChange := some 42 }

/-- C6 counterexample: the ledger `backfillLedger` — both counters far below
the ten-years-times-1000 threshold — does not round-trip: the load backfills
`lastOnlineTime` from `lastStateChange` (`server.js` lines 75-77), a second
exception beyond the unit-correction the claim allows. -/
theorem c6_roundtrip_counterexample :
    backfillLedger.uptimeSeconds ≤ TEN_YEARS_SEC * 1000
    ∧ backfillLedger.downtimeSeconds ≤ TEN_YEARS_SEC * 1000
    ∧ (loadUptimeFromDisk backfillLedger
        (some (saveUptimeToDisk backfillLedger)) 7).lastOnlineTime
      ≠ backfillLedger.lastOnlineTime := by
  refine ⟨by decide, by decide, by decide⟩

/-- C6 (amended): save followed by load reproduces all five persisted fields
of the ledger, except that (i) a counter exceeding `TEN_YEARS_SEC * 1000` is
divided by 1000 (floored) — e.g. a saved `uptimeSeconds` of 999999999999
loads back as 999999999 — and (ii) a null `lastOnlineTime` is backfilled
from `lastStateChange` when `lastStatus` is `true`, `downtimeSeconds > 0`
and `lastStateChange` is non-null. -/
theorem c6_save_load_roundtrip (s : ServerState) (t : Int) :
    (loadUptimeFromDisk s (some (saveUptimeToDisk s)) t).uptimeSeconds
      = (if s.uptimeSeconds > TEN_YEARS_SEC * 1000 then s.uptimeSeconds / 1000
         else s.uptimeSeconds)
    ∧ (loadUptimeFromDisk s (some (saveUptimeToDisk s)) t).downtimeSeconds
      = (if s.downtimeSeconds > TEN_YEARS_SEC * 1000 then s.downtimeSeconds / 1000
         else s.downtimeSeconds)
    ∧ (loadUptimeFromDisk s (some (saveUptimeToDisk s)) t).lastStateChange
      = s.lastStateChange
    ∧ (loadUptimeFromDisk s (some (saveUptimeToDisk s)) t).lastStatus = s.lastStatus
    ∧ (loadUptimeFromDisk s (some (saveUptimeToDisk s)) t).lastOnlineTime
      = (if s.lastStatus = some true ∧ s.downtimeSeconds > 0 ∧
            s.lastOnlineTime = none ∧ s.lastStateChange ≠ none
         then s.lastStateChange else s.lastOnlineTime)
    ∧ (loadUptimeFromDisk (initialState 0)
        (some { saveUptimeToDisk (initialState 0) with uptimeSeconds := some 999999999999 })
        0).uptimeSeconds = 999999999 :=
  ⟨rfl, rfl, rfl, rfl, rfl, by decide⟩

/-- C7 counterexample: at a concrete state with `lastStatus` known and two
seconds unsettled, the `/status` handler returns with the state exactly as
it found it — it performs no settlement (`server.js` lines 235-246 never
call `updateUptimeTracker`), while a settlement would have changed the
state. -/
theorem c7_status_no_settlement_counterexample :
    (statusEndpoint { initialState 0 with lastStatus := some true } 2000).snd
      ≠ updateUptimeTracker { initialState 0 with lastStatus := some true } 2000 := by
  decide

/-- C7 (amended): of the two read-only queries, only the ledger query
`/uptime` triggers a settlement before computing its response; the
current-state query `/status` reads the state unchanged. -/
theorem c7_only_uptime_settles (s : ServerState) (now : Int) :
    (uptimeEndpoint s now).snd = updateUptimeTracker s now
    ∧ (statusEndpoint s now).snd = s :=
  ⟨rfl, rfl⟩

/-- C8: the raw uptime percentage of the `/uptime` handler equals
`uptimeSeconds / (uptimeSeconds + downtimeSeconds) * 100` whenever the two
(non-negative) counters are not both zero, is exactly 100 when both are
zero (the guard `total > 0` never divides there), and is computed by the
handler from the settled counters. -/
theorem c8_uptime_percentage (u d : Int) (hu : 0 ≤ u) (hd : 0 ≤ d) :
    (¬(u = 0 ∧ d = 0) → uptimePct u d = (u : ℚ) / ((u : ℚ) + (d : ℚ)) * 100)
    ∧ uptimePct 0 0 = 100
    ∧ ∀ (s : ServerState) (now : Int),
        (uptimeEndpoint s now).fst.rawPct
          = uptimePct (updateUptimeTracker s now).uptimeSeconds
              (updateUptimeTracker s now).downtimeSeconds := by
  refine ⟨?_, by norm_num [uptimePct], fun s now => rfl⟩
  intro h
  have hpos : 0 < u + d := by omega
  rw [uptimePct, if_pos hpos]

/-- C8 witness: the percentage theorem applied at the concrete counters
(3, 1): 75 percent, and at (0, 0): 100. -/
theorem c8_uptime_percentage_witness :
    uptimePct 3 1 = (3 : ℚ) / ((3 : ℚ) + (1 : ℚ)) * 100 ∧ uptimePct 0 0 = 100 := by
  have h := c8_uptime_percentage 3 1 (by norm_num) (by norm_num)
  exact ⟨h.1 (by norm_num), h.2.1⟩
